import Mathlib

/-!
Shallow embedding of `waybar_auto_hide` (src/src/main.rs): a daemon that
watches cursor position and window state and toggles waybar's visibility.
We model the cursor edge detector, the event reconciler loop of `main`, the
window-event listener's emission logic, and the signal-retry driver
`set_waybar_visible`.  External effects (the `hyprctl` queries and the
`killall -SIGUSR1 waybar` invocations) are modelled as explicit inputs: a
query result is an `Option`, and the outcome of the i-th signal send in a
driver call is `outcomes i`.
-/

namespace WaybarAutoHide

/-- The distance from the top at which the bar will activate (src constant). -/
def PIXEL_THRESHOLD : Int := 3

/-- The distance from the top at which the bar will hide again (src constant). -/
def PIXEL_THRESHOLD_SECONDARY : Int := 50

/-- The delay between mouse position updates, in milliseconds (src constant). -/
def MOUSE_REFRESH_DELAY_MS : Nat := 100

/-- Maximum number of retry attempts when sending the visibility signal. -/
def WAYBAR_SIGNAL_RETRY_COUNT : Nat := 3

/-- Result of `hyprctl -j cursorpos` as parsed by the program: only `y` is read. -/
structure CursorPos where
  y : Int
deriving DecidableEq

/-- One iteration of the cursor poller loop in `spawn_mouse_position_updated`:
`emitted` is the payload of the `CursorTop` event sent on this tick (if any),
`previous_state` is the value the loop variable holds after the tick, and
`slept` records whether `thread::sleep(MOUSE_REFRESH_DELAY_MS)` runs in this
iteration (in the source the sleep sits inside the `if let Some(pos)` branch). -/
structure TickResult where
  emitted : Option Bool
  previous_state : Bool
  slept : Bool
deriving DecidableEq

/-- One loop iteration of `spawn_mouse_position_updated`, as a function of the
previous state and the (possibly failed) cursor-position query. -/
def detectorTick (previous_state : Bool) (cursor_pos : Option CursorPos) : TickResult :=
  match cursor_pos with
  | none => { emitted := none, previous_state := previous_state, slept := false }
  | some pos =>
      let treshold : Int :=
        if previous_state then PIXEL_THRESHOLD_SECONDARY else PIXEL_THRESHOLD
      let is_cursor_top : Bool := decide (pos.y ≤ treshold)
      { emitted := if is_cursor_top != previous_state then some is_cursor_top else none,
        previous_state := is_cursor_top,
        slept := true }

/-- The event type of the mpsc channel. -/
inductive Event where
  | cursorTop (val : Bool)
  | windowsOpened (val : Bool)
deriving DecidableEq

/-- The three mutable locals of `main`'s event loop. -/
structure ReconcilerState where
  cursor_top : Bool
  windows_opened : Bool
  last_visibility : Bool
deriving DecidableEq

/-- The flag update performed by the `match event` in `main`. -/
def applyEvent (s : ReconcilerState) : Event → ReconcilerState
  | Event.cursorTop v => { s with cursor_top := v }
  | Event.windowsOpened v => { s with windows_opened := v }

/-- The visibility decision `if cursor_top { true } else { !windows_opened }`. -/
def decideVisible (cursor_top windows_opened : Bool) : Bool :=
  if cursor_top then true else !windows_opened

/-- One iteration of `main`'s `for event in rx` loop: update the flag, compute
`current_visible`, and unconditionally set `last_visibility` to it.  The `Bool`
component records whether `set_waybar_visible` was invoked
(`current_visible != last_visibility`); note that `last_visibility` is updated
irrespective of anything the driver does, exactly as in the source where the
assignment sits after (and outside) the `if`. -/
def reconcilerStep (s : ReconcilerState) (e : Event) : ReconcilerState × Bool :=
  let s1 := applyEvent s e
  let current_visible := decideVisible s1.cursor_top s1.windows_opened
  ({ s1 with last_visibility := current_visible }, current_visible != s.last_visibility)

/-- Processing of a finite event sequence by `main`'s loop. -/
def reconcilerRun (s : ReconcilerState) (es : List Event) : ReconcilerState :=
  es.foldl (fun st e => (reconcilerStep st e).1) s

/-- The latest `CursorTop` payload in an event sequence (or the initial value). -/
def latestCursor (init : Bool) (es : List Event) : Bool :=
  es.foldl (fun acc e =>
    match e with
    | Event.cursorTop v => v
    | Event.windowsOpened _ => acc) init

/-- The latest `WindowsOpened` payload in an event sequence (or the initial value). -/
def latestWindows (init : Bool) (es : List Event) : Bool :=
  es.foldl (fun acc e =>
    match e with
    | Event.windowsOpened v => v
    | Event.cursorTop _ => acc) init

/-- Result of `hyprctl activeworkspace -j` as parsed by the program. -/
structure ActiveWindows where
  windows : Int
deriving DecidableEq

/-- The body of `check_windows`, as a function of the (possibly failed)
workspace query: on parse failure it returns `false`. -/
def check_windows (query_result : Option ActiveWindows) : Bool :=
  match query_result with
  | some active => decide (active.windows > 0)
  | none => false

/-- Whether `pat` occurs at the head of `text` (helper for substring search). -/
def leadsWith : List Char → List Char → Bool
  | [], _ => true
  | _ :: _, [] => false
  | a :: asx, b :: bs => a == b && leadsWith asx bs

/-- Whether `pat` occurs as a contiguous subsequence of `text`
(the semantics of Rust's `str::contains` for plain patterns). -/
def containsSeq (pat : List Char) : List Char → Bool
  | [] => leadsWith pat []
  | c :: cs => leadsWith pat (c :: cs) || containsSeq pat cs

/-- The filter of `spawn_window_event_listener`:
`line.contains("openwindow") || line.contains("closewindow") || line.contains("workspace")`. -/
def lineMatches (line : String) : Bool :=
  containsSeq "openwindow".data line.data ||
    containsSeq "closewindow".data line.data ||
    containsSeq "workspace".data line.data

/-- What `spawn_window_event_listener` sends for one notification line, given
the result of the `check_windows` query performed for that line: on a matching
line it unconditionally emits `WindowsOpened(check_windows())`. -/
def windowListenerEmit (line : String) (query_result : Option ActiveWindows) : Option Event :=
  if lineMatches line then some (Event.windowsOpened (check_windows query_result)) else none

/-- The `needs_toggle` helper: a toggle is needed when the states differ. -/
def needs_toggle (visible current_state : Bool) : Bool :=
  visible != current_state

/-- The mutex-protected `WaybarState` together with a count of the
`killall -SIGUSR1 waybar` invocations performed so far in this call. -/
structure DriverSt where
  is_visible : Bool
  sends : Nat
deriving DecidableEq

/-- How a retry-loop fragment of `set_waybar_visible` terminates:
`earlyReturn` models a Rust `return` from inside the fragment (skipping the
rest of the function), `fallThrough` models reaching the code after the
fragment, carrying the `signal_sent` flag. -/
inductive LoopOut where
  | earlyReturn (st : DriverSt)
  | fallThrough (signal_sent : Bool) (st : DriverSt)
deriving DecidableEq

/-- The `for attempt in 1..=WAYBAR_SIGNAL_RETRY_COUNT` loop of
`set_waybar_visible`, with `k` remaining attempts.  Each iteration re-checks
`needs_toggle` (returning early if another caller already converged — in this
single-caller model the state cannot change, but the checks are kept),
performs one signal send whose outcome is `outcomes st.sends`, re-checks
again, and on success sets the believed state and breaks with
`signal_sent = true`. -/
def retryLoop (visible : Bool) (outcomes : Nat → Bool) : Nat → DriverSt → LoopOut
  | 0, st => LoopOut.fallThrough false st
  | k + 1, st =>
      if needs_toggle visible st.is_visible = false then LoopOut.earlyReturn st
      else
        let ok := outcomes st.sends
        let st1 : DriverSt := { st with sends := st.sends + 1 }
        if needs_toggle visible st1.is_visible = false then LoopOut.earlyReturn st1
        else if ok then LoopOut.fallThrough true { st1 with is_visible := visible }
        else retryLoop visible outcomes k st1

/-- The extra-retry block of `set_waybar_visible`: entered only when the main
loop exhausted its attempts without success; re-checks `needs_toggle`, sleeps
the longer cooldown, performs one more send, re-checks, and on success sets
the believed state. -/
def extraRetry (visible : Bool) (outcomes : Nat → Bool) (st : DriverSt) : LoopOut :=
  if needs_toggle visible st.is_visible = false then LoopOut.fallThrough false st
  else
    let ok := outcomes st.sends
    let st1 : DriverSt := { st with sends := st.sends + 1 }
    if needs_toggle visible st1.is_visible = false then LoopOut.earlyReturn st1
    else if ok then LoopOut.fallThrough true { st1 with is_visible := visible }
    else LoopOut.fallThrough false st1

/-- The final safety check of `set_waybar_visible`, after the post-signal
sleep: only when a signal was sent, force the believed state to `visible` if
it still mismatches. -/
def finalCheck (visible : Bool) (signal_sent : Bool) (st : DriverSt) : DriverSt :=
  if signal_sent then
    if needs_toggle visible st.is_visible then { st with is_visible := visible } else st
  else st

/-- Observable result of one `set_waybar_visible` call: how many signal sends
were performed, the final `signal_sent` flag, and the final believed
visibility. -/
structure DriverResult where
  sends : Nat
  signal_sent : Bool
  is_visible : Bool
deriving DecidableEq

/-- The whole of `set_waybar_visible(visible, state)` in the single-caller,
never-poisoned-lock case, with `initial_visible` the believed state on entry
and `outcomes i` the success of the i-th `killall -SIGUSR1 waybar` send. -/
def set_waybar_visible (visible : Bool) (initial_visible : Bool)
    (outcomes : Nat → Bool) : DriverResult :=
  let st0 : DriverSt := { is_visible := initial_visible, sends := 0 }
  if needs_toggle visible st0.is_visible = false then
    { sends := 0, signal_sent := false, is_visible := initial_visible }
  else
    match retryLoop visible outcomes WAYBAR_SIGNAL_RETRY_COUNT st0 with
    | LoopOut.earlyReturn st =>
        { sends := st.sends, signal_sent := false, is_visible := st.is_visible }
    | LoopOut.fallThrough signal_sent st =>
        if signal_sent then
          let stF := finalCheck visible signal_sent st
          { sends := st.sends, signal_sent := signal_sent, is_visible := stF.is_visible }
        else
          match extraRetry visible outcomes st with
          | LoopOut.earlyReturn st1 =>
              { sends := st1.sends, signal_sent := false, is_visible := st1.is_visible }
          | LoopOut.fallThrough ss st1 =>
              let stF := finalCheck visible ss st1
              { sends := st1.sends, signal_sent := ss, is_visible := stF.is_visible }

/-- The initial reconciler state built at the top of `main`:
`cursor_top = false`, `windows_opened = check_windows()`,
`last_visibility = !windows_opened`. -/
def startupState (windows_opened : Bool) : ReconcilerState :=
  { cursor_top := false, windows_opened := windows_opened,
    last_visibility := !windows_opened }

/-- The initial reconciler state as a function of the startup workspace query. -/
def mainInit (query_result : Option ActiveWindows) : ReconcilerState :=
  startupState (check_windows query_result)

/-- The pre-loop toggle in `main`: `if windows_opened`, call
`set_waybar_visible(false, ...)` against the assumed-visible initial belief. -/
def startupToggle (windows_opened : Bool) (outcomes : Nat → Bool) : Option DriverResult :=
  if windows_opened then some (set_waybar_visible false true outcomes) else none

/-- Modelled from the spec: a display's placement rectangle
(`MonitorRect: {x, y, width, height}`).  Monitor handling is implemented in
another variant of this repository; the packaged `src/src/main.rs` reads only
the global cursor `y` and has no monitor query. -/
structure MonitorRect where
  x : Int
  y : Int
  width : Int
  height : Int
deriving DecidableEq

/-- A cursor sample in desktop (global) pixel coordinates. -/
structure CursorSample where
  x : Int
  y : Int
deriving DecidableEq

/-- Modelled from the spec: the point-in-rectangle containment test used to
determine the monitor containing the cursor. -/
def containsPoint (m : MonitorRect) (px py : Int) : Bool :=
  decide (m.x ≤ px) && decide (px < m.x + m.width) &&
    decide (m.y ≤ py) && decide (py < m.y + m.height)

/-- Modelled from the spec: localization of a cursor sample to its owning
monitor — the first monitor containing the point — and the monitor-local
`local_y = y - monitor.y` used for the threshold comparison; `none` when no
monitor contains the point (the tick is skipped). -/
def localizeCursor (monitors : List MonitorRect) (c : CursorSample) :
    Option (MonitorRect × Int) :=
  (monitors.find? (fun m => containsPoint m c.x c.y)).map (fun m => (m, c.y - m.y))

/-! Helper lemmas about the reconciler loop. -/

theorem reconcilerRun_cursor (es : List Event) :
    ∀ s : ReconcilerState, (reconcilerRun s es).cursor_top = latestCursor s.cursor_top es := by
  induction es with
  | nil => intro s; rfl
  | cons e es ih =>
      intro s
      cases e with
      | cursorTop v => exact ih _
      | windowsOpened v => exact ih _

theorem reconcilerRun_windows (es : List Event) :
    ∀ s : ReconcilerState,
      (reconcilerRun s es).windows_opened = latestWindows s.windows_opened es := by
  induction es with
  | nil => intro s; rfl
  | cons e es ih =>
      intro s
      cases e with
      | cursorTop v => exact ih _
      | windowsOpened v => exact ih _

theorem reconcilerRun_append_single (s : ReconcilerState) (es : List Event) (e : Event) :
    reconcilerRun s (es ++ [e]) = (reconcilerStep (reconcilerRun s es) e).1 := by
  simp [reconcilerRun, List.foldl_append]

theorem latestCursor_append_single (init : Bool) (es : List Event) (e : Event) :
    latestCursor init (es ++ [e]) =
      (match e with
       | Event.cursorTop v => v
       | Event.windowsOpened _ => latestCursor init es) := by
  simp [latestCursor, List.foldl_append]

theorem latestWindows_append_single (init : Bool) (es : List Event) (e : Event) :
    latestWindows init (es ++ [e]) =
      (match e with
       | Event.windowsOpened v => v
       | Event.cursorTop _ => latestWindows init es) := by
  simp [latestWindows, List.foldl_append]

/-- Claim C1: after each processed event, the tracked `last_visibility` equals
the decision `if cursor_top then true else !windows_opened` computed from the
latest value of each flag (so it is independent of the arrival order of
same-flag repeats), for every prefix of the processed sequence ending in a
processed event.  The update is unconditional in `reconcilerStep` — it does
not depend on any outcome of the toggle driver, which is not even an input of
the step function, matching the source where `last_visibility = current_visible`
sits outside the `if` that invokes the driver. -/
theorem C1_last_visibility_invariant (s : ReconcilerState) (es : List Event) (e : Event) :
    (reconcilerRun s (es ++ [e])).last_visibility =
      decideVisible (latestCursor s.cursor_top (es ++ [e]))
        (latestWindows s.windows_opened (es ++ [e])) := by
  rw [reconcilerRun_append_single, latestCursor_append_single, latestWindows_append_single]
  cases e with
  | cursorTop v =>
      show decideVisible v (reconcilerRun s es).windows_opened = _
      rw [reconcilerRun_windows]
  | windowsOpened v =>
      show decideVisible (reconcilerRun s es).cursor_top v = _
      rw [reconcilerRun_cursor]

/-- Claim C2: a cursor sample at global (1930, 5) with monitors
`[{0,0,1920,1080}, {1920,0,1920,1080}]` is attributed to the second monitor
with monitor-local `local_y = 5`, and the first monitor does not contain the
point (so the threshold is not evaluated against the first monitor's origin). -/
theorem C2_monitor_localization :
    localizeCursor [⟨0, 0, 1920, 1080⟩, ⟨1920, 0, 1920, 1080⟩] ⟨1930, 5⟩ =
        some (⟨1920, 0, 1920, 1080⟩, 5) ∧
      containsPoint ⟨0, 0, 1920, 1080⟩ 1930 5 = false ∧
      containsPoint ⟨1920, 0, 1920, 1080⟩ 1930 5 = true := by
  decide

/-- Claim C4: hysteresis uses the threshold selected by the previous state —
from `previous_state = false` a sample at `y = PIXEL_THRESHOLD` flips the state
to true; from `previous_state = true` a sample at `y = PIXEL_THRESHOLD + 1`
does not flip back, while a sample at `y = PIXEL_THRESHOLD_SECONDARY + 1` does;
and a `CursorTop` event is emitted in a tick exactly when the new state differs
from the previous state. -/
theorem C4_hysteresis :
    ((detectorTick false (some ⟨PIXEL_THRESHOLD⟩)).previous_state = true ∧
        (detectorTick false (some ⟨PIXEL_THRESHOLD⟩)).emitted = some true) ∧
      ((detectorTick true (some ⟨PIXEL_THRESHOLD + 1⟩)).previous_state = true ∧
        (detectorTick true (some ⟨PIXEL_THRESHOLD + 1⟩)).emitted = none) ∧
      ((detectorTick true (some ⟨PIXEL_THRESHOLD_SECONDARY + 1⟩)).previous_state = false ∧
        (detectorTick true (some ⟨PIXEL_THRESHOLD_SECONDARY + 1⟩)).emitted = some false) ∧
      (∀ (prev : Bool) (pos : CursorPos),
        (detectorTick prev (some pos)).emitted =
          (if (detectorTick prev (some pos)).previous_state != prev
           then some (detectorTick prev (some pos)).previous_state
           else none)) :=
  ⟨⟨by decide, by decide⟩, ⟨by decide, by decide⟩, ⟨by decide, by decide⟩,
    fun _ _ => rfl⟩

/-- Claim C9 evaluation: when the cursor-position query yields no data, the
tick emits no event and leaves the state unchanged, but it does not execute
the `MOUSE_REFRESH_DELAY_MS` sleep (`slept = false`): in the source the sleep
sits inside the `if let Some(pos)` branch, so a failed query loops back to
polling immediately instead of waiting for the next tick. -/
theorem C9_failed_query_tick :
    detectorTick false none = { emitted := none, previous_state := false, slept := false } ∧
      detectorTick true none = { emitted := none, previous_state := true, slept := false } ∧
      (detectorTick false (some ⟨7⟩)).slept = true ∧
      (detectorTick true (some ⟨7⟩)).slept = true := by
  decide

/-- Claim C10: with previous state at-top, a sample at exactly
`y = PIXEL_THRESHOLD_SECONDARY` keeps the state at-top and emits no event
(the comparison `y <= threshold` is inclusive); the flip back happens exactly
for `y` strictly greater than the exit threshold. -/
theorem C10_exit_threshold_inclusive :
    ((detectorTick true (some ⟨PIXEL_THRESHOLD_SECONDARY⟩)).previous_state = true ∧
        (detectorTick true (some ⟨PIXEL_THRESHOLD_SECONDARY⟩)).emitted = none) ∧
      (∀ y : Int, PIXEL_THRESHOLD_SECONDARY < y →
        (detectorTick true (some ⟨y⟩)).previous_state = false ∧
          (detectorTick true (some ⟨y⟩)).emitted = some false) ∧
      (∀ y : Int, y ≤ PIXEL_THRESHOLD_SECONDARY →
        (detectorTick true (some ⟨y⟩)).previous_state = true ∧
          (detectorTick true (some ⟨y⟩)).emitted = none) := by
  refine ⟨by decide, ?_, ?_⟩
  · intro y hy
    have hle : decide (y ≤ PIXEL_THRESHOLD_SECONDARY) = false := by
      simp only [decide_eq_false_iff_not, not_le]
      exact hy
    constructor <;> simp [detectorTick, hle]
  · intro y hy
    have hle : decide (y ≤ PIXEL_THRESHOLD_SECONDARY) = true := by
      simpa using hy
    constructor <;> simp [detectorTick, hle]

/-- Claim C10 witness: the theorem applied at the concrete inputs 51 and 7. -/
theorem C10_exit_threshold_inclusive_witness :
    (PIXEL_THRESHOLD_SECONDARY < (51 : Int) ∧
        (detectorTick true (some ⟨51⟩)).emitted = some false) ∧
      ((7 : Int) ≤ PIXEL_THRESHOLD_SECONDARY ∧
        (detectorTick true (some ⟨7⟩)).emitted = none) :=
  ⟨⟨by decide, (C10_exit_threshold_inclusive.2.1 51 (by decide)).2⟩,
    ⟨by decide, (C10_exit_threshold_inclusive.2.2 7 (by decide)).2⟩⟩

/-- Claim C3: when the desired value differs from the believed state and every
signal send fails, `set_waybar_visible` performs exactly
`WAYBAR_SIGNAL_RETRY_COUNT = 3` bounded attempts plus exactly one extra
cooldown attempt — 4 sends in total — then gives up with `signal_sent = false`
and the believed state unchanged. -/
theorem C3_retry_bound (visible believed : Bool) (h : visible ≠ believed) :
    set_waybar_visible visible believed (fun _ => false) =
      { sends := WAYBAR_SIGNAL_RETRY_COUNT + 1, signal_sent := false,
        is_visible := believed } := by
  cases visible <;> cases believed <;> first
    | exact absurd rfl h
    | rfl

/-- Claim C3 witness: the theorem applied at `visible = true`, `believed = false`. -/
theorem C3_retry_bound_witness :
    (true ≠ false) ∧
      set_waybar_visible true false (fun _ => false) =
        { sends := WAYBAR_SIGNAL_RETRY_COUNT + 1, signal_sent := false,
          is_visible := false } :=
  ⟨by decide, C3_retry_bound true false (by decide)⟩

/-- Claim C5: calling `set_waybar_visible` with a value equal to the currently
believed state sends zero signals and leaves the believed state unchanged,
whatever the signal outcomes would have been. -/
theorem C5_idempotent_noop (v : Bool) (outcomes : Nat → Bool) :
    set_waybar_visible v v outcomes =
      { sends := 0, signal_sent := false, is_visible := v } := by
  cases v <;> rfl

/-- Claim C6: at startup `cursor_top = false`,
`windows_opened = check_windows()`, and `last_visibility = !windows_opened`;
processing the synthetic `CursorTop(false)` event from that state issues no
toggle and leaves the state unchanged; the pre-loop hide toggle is issued
exactly when windows are open (belief starts at visible), and with a
succeeding signal it performs exactly one send. -/
theorem C6_startup (query_result : Option ActiveWindows) (outcomes : Nat → Bool) :
    (mainInit query_result).cursor_top = false ∧
      (mainInit query_result).windows_opened = check_windows query_result ∧
      (mainInit query_result).last_visibility = !check_windows query_result ∧
      reconcilerStep (mainInit query_result) (Event.cursorTop false) =
        (mainInit query_result, false) ∧
      startupToggle false outcomes = none ∧
      startupToggle true (fun _ => true) =
        some { sends := 1, signal_sent := true, is_visible := false } := by
  refine ⟨rfl, rfl, rfl, ?_, rfl, rfl⟩
  show reconcilerStep (startupState (check_windows query_result)) (Event.cursorTop false) =
    (startupState (check_windows query_result), false)
  cases check_windows query_result <;> rfl

/-- Claim C8 counterexample: on a window-change notification line whose
`check_windows` query fails (no parseable data), the listener does not skip
the cycle — it emits `WindowsOpened(false)`, because `check_windows` maps a
failed query to `false` and the listener sends unconditionally on a matching
line. -/
theorem C8_failed_query_still_emits :
    windowListenerEmit "openwindow>>1" none = some (Event.windowsOpened false) ∧
      windowListenerEmit "openwindow>>1" none ≠ none := by
  decide

/-- Claim C8 as amended: on a matching notification line, a failed
window-activity query yields a `WindowsOpened(false)` event for that cycle
(failure is treated as "no windows open", not skipped), and the next cycle's
event carries that cycle's fresh authoritative query result, so the value
self-heals on the next successful query. -/
theorem C8_failed_query_emits_false (line : String) (h : lineMatches line = true) :
    windowListenerEmit line none = some (Event.windowsOpened false) ∧
      (∀ n : Int, windowListenerEmit line (some ⟨n⟩) =
        some (Event.windowsOpened (decide (n > 0)))) := by
  constructor
  · simp [windowListenerEmit, h, check_windows]
  · intro n
    simp [windowListenerEmit, h, check_windows]

/-- Claim C8 amended-theorem witness: applied at a concrete `openwindow` line. -/
theorem C8_failed_query_emits_false_witness :
    lineMatches "openwindow>>1" = true ∧
      windowListenerEmit "openwindow>>1" (some ⟨2⟩) =
        some (Event.windowsOpened true) :=
  ⟨by decide, by
    have h := (C8_failed_query_emits_false "openwindow>>1" (by decide)).2 2
    simpa using h⟩

theorem needs_toggle_self (v : Bool) : needs_toggle v v = false := by
  simp [needs_toggle]

/-- Claim C7: when `set_waybar_visible` is invoked with a desired value
differing from the believed state (single caller, lock never poisoned), the
final `signal_sent` flag holds exactly when one of the performed sends
succeeded; if at least one send succeeded the believed visibility equals the
desired value, and if no send ever succeeded the believed visibility is
unchanged from its pre-call value. -/
theorem C7_belief_tracks_success (v b : Bool) (o : Nat → Bool) (h : v ≠ b) :
    ((set_waybar_visible v b o).signal_sent = true ↔
        ∃ i, i < (set_waybar_visible v b o).sends ∧ o i = true) ∧
      ((set_waybar_visible v b o).signal_sent = true →
        (set_waybar_visible v b o).is_visible = v) ∧
      ((set_waybar_visible v b o).signal_sent = false →
        (set_waybar_visible v b o).is_visible = b) := by
  have hn : needs_toggle v b = true := by
    cases v <;> cases b <;> simp_all [needs_toggle]
  by_cases ho0 : o 0 = true
  · have hres : set_waybar_visible v b o =
        { sends := 1, signal_sent := true, is_visible := v } := by
      simp [set_waybar_visible, WAYBAR_SIGNAL_RETRY_COUNT, retryLoop, extraRetry, finalCheck,
        hn, ho0, needs_toggle_self]
    rw [hres]
    exact ⟨⟨fun _ => ⟨0, show (0 : Nat) < 1 by omega, ho0⟩, fun _ => rfl⟩,
      fun _ => rfl, fun hc => (nomatch hc)⟩
  · have ho0f : o 0 = false := by simpa using ho0
    by_cases ho1 : o 1 = true
    · have hres : set_waybar_visible v b o =
          { sends := 2, signal_sent := true, is_visible := v } := by
        simp [set_waybar_visible, WAYBAR_SIGNAL_RETRY_COUNT, retryLoop, extraRetry, finalCheck,
          hn, ho0f, ho1, needs_toggle_self]
      rw [hres]
      exact ⟨⟨fun _ => ⟨1, show (1 : Nat) < 2 by omega, ho1⟩, fun _ => rfl⟩,
        fun _ => rfl, fun hc => (nomatch hc)⟩
    · have ho1f : o 1 = false := by simpa using ho1
      by_cases ho2 : o 2 = true
      · have hres : set_waybar_visible v b o =
            { sends := 3, signal_sent := true, is_visible := v } := by
          simp [set_waybar_visible, WAYBAR_SIGNAL_RETRY_COUNT, retryLoop, extraRetry, finalCheck,
            hn, ho0f, ho1f, ho2, needs_toggle_self]
        rw [hres]
        exact ⟨⟨fun _ => ⟨2, show (2 : Nat) < 3 by omega, ho2⟩, fun _ => rfl⟩,
          fun _ => rfl, fun hc => (nomatch hc)⟩
      · have ho2f : o 2 = false := by simpa using ho2
        by_cases ho3 : o 3 = true
        · have hres : set_waybar_visible v b o =
              { sends := 4, signal_sent := true, is_visible := v } := by
            simp [set_waybar_visible, WAYBAR_SIGNAL_RETRY_COUNT, retryLoop, extraRetry,
              finalCheck, hn, ho0f, ho1f, ho2f, ho3, needs_toggle_self]
          rw [hres]
          exact ⟨⟨fun _ => ⟨3, show (3 : Nat) < 4 by omega, ho3⟩, fun _ => rfl⟩,
            fun _ => rfl, fun hc => (nomatch hc)⟩
        · have ho3f : o 3 = false := by simpa using ho3
          have hres : set_waybar_visible v b o =
              { sends := 4, signal_sent := false, is_visible := b } := by
            simp [set_waybar_visible, WAYBAR_SIGNAL_RETRY_COUNT, retryLoop, extraRetry,
              finalCheck, hn, ho0f, ho1f, ho2f, ho3f, needs_toggle_self]
          rw [hres]
          refine ⟨⟨fun hc => (nomatch hc), fun hex => ?_⟩,
            fun hc => (nomatch hc), fun _ => rfl⟩
          obtain ⟨i, hi, hoi⟩ := hex
          have hi4 : i < 4 := hi
          interval_cases i <;> simp_all

/-- Claim C7 witness: the theorem applied at desired `true`, believed `false`,
with an always-succeeding signal. -/
theorem C7_belief_tracks_success_witness :
    (true ≠ false) ∧
      (set_waybar_visible true false (fun _ => true)).is_visible = true :=
  ⟨by decide, (C7_belief_tracks_success true false (fun _ => true) (by decide)).2.1 rfl⟩

end WaybarAutoHide
